import Mathlib

/-!
Verification of the storage-node core of `SingleVMs/Virtual_machine_1.py`.

Python strings are modelled as lists of characters (`PStr`), Python ints as
`Int`, and the `self.files` dict as an insertion-ordered association list.
External shell commands issued through `host.cmd` only affect the real disk,
never the in-memory state, so they are modelled as inputs (`start` takes the
mount-verification outcome and the list of entries the rescan finds on disk).
-/

set_option autoImplicit false

/-- Model of a Python `str`: a list of code points. -/
abbrev PStr := List Char

/-- Python `s.startswith(c)` for a single-character prefix. -/
def startsWithChar (c : Char) : PStr → Bool
  | [] => false
  | d :: _ => d = c

/-- Python `s.replace(old, new, 1)` for single characters: replace the first
occurrence of `a` by `b`. -/
def replaceFirstChar : PStr → Char → Char → PStr
  | [], _, _ => []
  | d :: rest, a, b => if d = a then b :: rest else d :: replaceFirstChar rest a b

/-- Python `s.lstrip(sep)`: drop every leading `'/'`. -/
def lstripSlash (s : PStr) : PStr := s.dropWhile (fun c => c = '/')

/-- Python `s.split(sep)` for the separator `'/'` (CPython `str.split` with an
explicit separator: `"".split(sep) == [""]`, empty pieces are kept). -/
def splitOnSlash : PStr → List PStr
  | [] => [[]]
  | c :: rest =>
    if c = '/' then [] :: splitOnSlash rest
    else
      match splitOnSlash rest with
      | [] => [[c]]
      | cur :: others => (c :: cur) :: others

/-- Python `posixpath.split(p)`: split off the component after the last `'/'`;
the head keeps no trailing slashes unless it consists only of slashes. -/
def osPathSplit (p : PStr) : PStr × PStr :=
  let tailRev := p.reverse.takeWhile (fun c => c ≠ '/')
  let tl := tailRev.reverse
  let hd := p.take (p.length - tailRev.length)
  let hd2 :=
    if hd ≠ [] ∧ ¬ hd.all (fun c => c = '/') then
      (hd.reverse.dropWhile (fun c => c = '/')).reverse
    else hd
  (hd2, tl)

/-- Binary `posixpath.join(a, b)`. -/
def osPathJoin (a b : PStr) : PStr :=
  if startsWithChar '/' b then b
  else if a = [] ∨ a.getLast? = some '/' then a ++ b
  else a ++ '/' :: b

/-- The number of leading separators `posixpath.normpath` preserves:
two for exactly two leading slashes (POSIX special case), one for one or
three-and-more, zero for a relative path. -/
def initialSlashCount (p : PStr) : Nat :=
  match p with
  | '/' :: '/' :: '/' :: _ => 1
  | '/' :: '/' :: _ => 2
  | '/' :: _ => 1
  | _ => 0

/-- One iteration of the component loop of `posixpath.normpath`:
skip `''` and `'.'`; append a non-`..` component, or a `..` that cannot be
cancelled (relative path with no components yet, or previous component is
itself `..`); otherwise drop the last accumulated component. -/
def normStep (initialSlashes : Nat) (acc : List PStr) (comp : PStr) : List PStr :=
  if comp = [] ∨ comp = ['.'] then acc
  else if comp ≠ ['.', '.'] ∨ (initialSlashes = 0 ∧ acc = []) ∨
      acc.getLast? = some ['.', '.'] then
    acc ++ [comp]
  else acc.dropLast

/-- Python `posixpath.normpath`, translated clause by clause from CPython. -/
def normpath (path : PStr) : PStr :=
  if path = [] then ['.']
  else
    let initialSlashes := initialSlashCount path
    let comps := splitOnSlash path
    let newComps := comps.foldl (normStep initialSlashes) []
    let joined := List.intercalate ['/'] newComps
    let res := List.replicate initialSlashes '/' ++ joined
    if res = [] then ['.'] else res

/-- Default placeholder payload of `VirtualFile.__init__`:
`f"Content of {os.path.basename(file_id)} ({size_bytes} bytes)"`. -/
def defaultContent (file_id : PStr) (size_bytes : Int) : PStr :=
  "Content of ".toList ++ (osPathSplit file_id).2 ++ " (".toList ++
    (toString size_bytes).toList ++ " bytes)".toList

/-- The `VirtualFile` class: one file or folder known to the node. -/
structure VirtualFile where
  file_id : PStr
  size_bytes : Int
  is_folder : Bool
  content : Option PStr
  path : PStr
deriving Repr, DecidableEq

/-- Constructor `VirtualFile.__init__`.  Note the Python precedence:
`content or default if not is_folder else None` parses as
`(content or default) if not is_folder else None`, and an empty string is
falsy, so it is replaced by the default just like `None`. -/
def VirtualFile.make (file_id : PStr) (base_path : PStr) (size_bytes : Int)
    (is_folder : Bool) (content : Option PStr) : VirtualFile :=
  { file_id := file_id
    size_bytes := size_bytes
    is_folder := is_folder
    content :=
      if is_folder then none
      else some (match content with
        | some c => if c = [] then defaultContent file_id size_bytes else c
        | none => defaultContent file_id size_bytes)
    path := osPathJoin base_path file_id }

/-- Python `path_key in self.files` / `self.files[path_key]` on the insertion-ordered
association list modelling the Python dict. -/
def lookupKey : List (PStr × VirtualFile) → PStr → Option VirtualFile
  | [], _ => none
  | kv :: rest, k => if kv.1 = k then some kv.2 else lookupKey rest k

/-- Python `self.files[path_key] = v`: replace in place if the key is present,
append at the end otherwise (Python dict insertion order). -/
def insertKey : List (PStr × VirtualFile) → PStr → VirtualFile →
    List (PStr × VirtualFile)
  | [], k, v => [(k, v)]
  | kv :: rest, k, v => if kv.1 = k then (k, v) :: rest else kv :: insertKey rest k v

/-- The `StorageVirtualNode` class state. -/
structure StorageVirtualNode where
  total_storage : Int
  used_storage : Int
  files : List (PStr × VirtualFile)
  disk_path : PStr
  image_path : PStr
  is_running : Bool
  cwd : PStr
deriving Repr, DecidableEq

/-- Constructor `StorageVirtualNode.__init__`. -/
def StorageVirtualNode.init (total_storage_bytes : Int)
    (disk_path image_path : PStr) : StorageVirtualNode :=
  { total_storage := total_storage_bytes
    used_storage := 0
    files := []
    disk_path := disk_path
    image_path := image_path
    is_running := false
    cwd := ['/'] }

/-- One path found on disk by the rescan's `find` + `stat` commands, already
converted to a key relative to the mount point. -/
structure DiskEntry where
  path_key : PStr
  size_bytes : Int
  is_folder : Bool
deriving Repr, DecidableEq

/-- Method `_rescan_filesystem`: clear `files`/`used_storage`, then for every path
reported by the external `find`/`stat` commands insert a `VirtualFile` and
accumulate `used_storage` over non-folders, skipping the `'.'` key. -/
def StorageVirtualNode.rescan_filesystem (node : StorageVirtualNode)
    (entries : List DiskEntry) : StorageVirtualNode :=
  let cleared := { node with files := [], used_storage := 0 }
  entries.foldl (fun n e =>
    if e.path_key = ['.'] then n
    else
      let vf := VirtualFile.make e.path_key n.disk_path e.size_bytes e.is_folder none
      { n with
        files := insertKey n.files e.path_key vf
        used_storage :=
          if e.is_folder then n.used_storage else n.used_storage + e.size_bytes })
    cleared

/-- Method `start(host)`.  The image-existence branch and the mount commands only
touch the real disk; `mount_ok` is the outcome of the `mount | grep` check and
`disk_entries` is what the rescan finds on the mounted disk. -/
def StorageVirtualNode.start (node : StorageVirtualNode) (mount_ok : Bool)
    (disk_entries : List DiskEntry) : StorageVirtualNode × Bool :=
  if node.is_running then (node, false)
  else if mount_ok then
    let running := { node with is_running := true }
    (running.rescan_filesystem disk_entries, true)
  else (node, false)

/-- Method `stop(host)`: the unmount commands only touch the real disk. -/
def StorageVirtualNode.stop (node : StorageVirtualNode) :
    StorageVirtualNode × Bool :=
  if node.is_running = false then (node, false)
  else ({ node with is_running := false, used_storage := 0, files := [] }, true)

/-- Method `_resolve_path`. -/
def StorageVirtualNode.resolve_path (node : StorageVirtualNode) (path : PStr) :
    PStr :=
  if path = [] then node.cwd
  else
    let abs_path :=
      if startsWithChar '/' path || startsWithChar '~' path then
        replaceFirstChar path '~' '/'
      else osPathJoin node.cwd path
    normpath abs_path

/-- Method `change_directory`, returning the updated node with the
`(bool, self.cwd)` pair the Python method returns. -/
def StorageVirtualNode.change_directory (node : StorageVirtualNode)
    (path : PStr) : StorageVirtualNode × Bool × PStr :=
  let target_path := node.resolve_path path
  if target_path = ['/'] then ({ node with cwd := ['/'] }, true, ['/'])
  else
    let key := lstripSlash target_path
    match lookupKey node.files key with
    | some f =>
      if f.is_folder then ({ node with cwd := target_path }, true, target_path)
      else (node, false, node.cwd)
    | none => (node, false, node.cwd)

/-- The parent check shared by `create_virtual_file` and
`create_virtual_folder`: `parent_path and (parent_path not in self.files or
not self.files[parent_path].is_folder)`. -/
def parentMissing (files : List (PStr × VirtualFile)) (parent_path : PStr) :
    Bool :=
  !parent_path.isEmpty &&
    (match lookupKey files parent_path with
      | none => true
      | some f => !f.is_folder)

/-- The Python method returns `None` on each failure, distinguished only by
the printed message; the model names the failure causes explicitly. -/
inductive FileResult where
  | ok (f : VirtualFile)
  | notRunning
  | insufficientStorage
  | noSuchParent
deriving Repr, DecidableEq

/-- Returns `true` exactly on the success result. -/
def FileResult.isOk : FileResult → Bool
  | .ok _ => true
  | _ => false

/-- Method `create_virtual_file`.  The quota check precedes the overwrite lookup and
the parent check; on overwrite the previous entry's size (whatever its kind)
is subtracted before the new size is added.  The `truncate` command only
touches the real disk. -/
def StorageVirtualNode.create_virtual_file (node : StorageVirtualNode)
    (path_key : PStr) (size_bytes : Int) (content : Option PStr) :
    StorageVirtualNode × FileResult :=
  if node.is_running = false then (node, FileResult.notRunning)
  else if node.used_storage + size_bytes > node.total_storage then
    (node, FileResult.insufficientStorage)
  else
    let original_size : Int :=
      match lookupKey node.files path_key with
      | some f => f.size_bytes
      | none => 0
    let parent_path := (osPathSplit path_key).1
    if parentMissing node.files parent_path then (node, FileResult.noSuchParent)
    else
      let virtual_file := VirtualFile.make path_key node.disk_path size_bytes false content
      ({ node with
          used_storage := node.used_storage - original_size + size_bytes
          files := insertKey node.files path_key virtual_file },
        FileResult.ok virtual_file)

/-- Failure causes of `create_virtual_folder`, named after the printed
messages (the Python method returns `None` for each of them). -/
inductive FolderResult where
  | ok (f : VirtualFile)
  | notRunning
  | alreadyExists
  | noSuchParent
deriving Repr, DecidableEq

/-- Returns `true` exactly on the success result. -/
def FolderResult.isOk : FolderResult → Bool
  | .ok _ => true
  | _ => false

/-- Method `create_virtual_folder`.  A key collision (file or folder) is an error,
unlike `create_virtual_file`; `used_storage` is never changed.  The `mkdir`
command only touches the real disk. -/
def StorageVirtualNode.create_virtual_folder (node : StorageVirtualNode)
    (path_key : PStr) : StorageVirtualNode × FolderResult :=
  if node.is_running = false then (node, FolderResult.notRunning)
  else if (lookupKey node.files path_key).isSome then
    (node, FolderResult.alreadyExists)
  else
    let parent_path := (osPathSplit path_key).1
    if parentMissing node.files parent_path then (node, FolderResult.noSuchParent)
    else
      let virtual_folder := VirtualFile.make path_key node.disk_path 0 true none
      ({ node with files := insertKey node.files path_key virtual_folder },
        FolderResult.ok virtual_folder)

/-- Python string comparison: lexicographic on code points. -/
def charListLt : PStr → PStr → Bool
  | [], [] => false
  | [], _ :: _ => true
  | _ :: _, [] => false
  | a :: as, b :: bs => if a < b then true else if b < a then false else charListLt as bs

/-- Insert one dict item into a key-sorted list (the keys of a dict are
pairwise distinct, so comparing keys alone matches Python's tuple order). -/
def insertSortedByKey (kv : PStr × VirtualFile) :
    List (PStr × VirtualFile) → List (PStr × VirtualFile)
  | [] => [kv]
  | x :: xs =>
    if charListLt x.1 kv.1 then x :: insertSortedByKey kv xs else kv :: x :: xs

/-- Python `sorted(self.files.items())`. -/
def sortByKey (l : List (PStr × VirtualFile)) : List (PStr × VirtualFile) :=
  l.foldr insertSortedByKey []

/-- Python `f"{s:<10}"`-style padding: pad on the right with spaces to width `w`. -/
def padRight (s : PStr) (w : Nat) : PStr :=
  s ++ List.replicate (w - s.length) ' '

/-- The line `list_contents` prints for one entry: folders as
`d ---        name/`, files as `- <size>B padded to 10 columns, then name`. -/
def entryLine (kv : PStr × VirtualFile) : PStr :=
  let basename := (osPathSplit kv.1).2
  if kv.2.is_folder then "d ---        ".toList ++ basename ++ "/".toList
  else
    "- ".toList ++ padRight ((toString kv.2.size_bytes).toList ++ "B".toList) 10 ++
      " ".toList ++ basename

/-- Method `list_contents`. -/
def StorageVirtualNode.list_contents (node : StorageVirtualNode) : PStr :=
  if node.is_running = false then "Virtual device is not running.".toList
  else
    let target_dir := lstripSlash node.cwd
    let target_dir := if node.cwd = ['/'] then [] else target_dir
    let output := (sortByKey node.files).foldl (fun out kv =>
      if (osPathSplit kv.1).1 = target_dir then out ++ [entryLine kv] else out) []
    List.intercalate "\n".toList output

/-- The key of the current directory as `list_contents` computes it:
root maps to the empty parent, anything else to its leading-slash-stripped
form. -/
def currentKey (node : StorageVirtualNode) : PStr :=
  if node.cwd = ['/'] then [] else lstripSlash node.cwd

/-- Sum of `size_bytes` over the non-folder entries of the index. -/
def sumNonFolder (files : List (PStr × VirtualFile)) : Int :=
  ((files.filter (fun kv => kv.2.is_folder = false)).map
    (fun kv => kv.2.size_bytes)).sum

/-- Chains of parent-directory components: `ddChain k` is `..` followed by
`k` further `/..` segments. -/
def ddChain : Nat → PStr
  | 0 => ['.', '.']
  | k + 1 => '.' :: '.' :: '/' :: ddChain k

/-- Running node used to exercise the quota check: fresh 100-byte device. -/
def quotaNode : StorageVirtualNode :=
  { StorageVirtualNode.init 100 "/mnt/vm1_disk".toList "vm1_disk.img".toList with
    is_running := true }

/-- Running node holding one 5-byte file under key `x`. -/
def overwriteNode : StorageVirtualNode :=
  { StorageVirtualNode.init 100 "/mnt/vm1_disk".toList "vm1_disk.img".toList with
    is_running := true
    used_storage := 5
    files := [("x".toList,
      VirtualFile.make "x".toList "/mnt/vm1_disk".toList 5 false none)] }

/-- Fresh running node with an empty disk, for the parent-check scenario. -/
def parentNode : StorageVirtualNode :=
  { StorageVirtualNode.init 100 "/mnt/vm1_disk".toList "vm1_disk.img".toList with
    is_running := true }

/-- Node whose index holds one folder entry `d`, for navigation tests. -/
def navNode : StorageVirtualNode :=
  { StorageVirtualNode.init 100 "/mnt/vm1_disk".toList "vm1_disk.img".toList with
    files := [("d".toList,
      VirtualFile.make "d".toList "/mnt/vm1_disk".toList 0 true none)] }

/-- Running node used by the lifecycle witness. -/
def runningNode : StorageVirtualNode :=
  { StorageVirtualNode.init 100 "/mnt/vm1_disk".toList "vm1_disk.img".toList with
    is_running := true }

/-- Start of the rescan scenario: the backing disk already holds one
directory `a`, whose `stat` size is the usual 4096 bytes for an ext4
directory, so the rescan indexes a folder entry of size 4096. -/
def rescanNode : StorageVirtualNode :=
  ((StorageVirtualNode.init (100 * 1024 * 1024) "/mnt/vm1_disk".toList
      "vm1_disk.img".toList).start true [⟨"a".toList, 4096, true⟩]).1

/-- State after overwriting the rescanned folder key `a` with a 10-byte
file. -/
def rescanOverwritten : StorageVirtualNode :=
  (rescanNode.create_virtual_file "a".toList 10 none).1

/-- Reachable state with folder `a` holding file `a/b.txt`: start on an
empty disk, `create_virtual_folder("a")`, then
`create_virtual_file("a/b.txt", 5)`. -/
def nestedNode : StorageVirtualNode :=
  (((((StorageVirtualNode.init 100 "/mnt/vm1_disk".toList
        "vm1_disk.img".toList).start true []).1).create_virtual_folder
      "a".toList).1.create_virtual_file "a/b.txt".toList 5 none).1

/-- The listing scenario of the spec: start on an empty disk, then
`create_virtual_folder("docs")`, `create_virtual_file("docs/a.txt", 5)`,
`create_virtual_file("b.txt", 3)`. -/
def listingNode : StorageVirtualNode :=
  (((((((StorageVirtualNode.init 100 "/mnt/vm1_disk".toList
          "vm1_disk.img".toList).start true []).1).create_virtual_folder
        "docs".toList).1.create_virtual_file "docs/a.txt".toList 5
      none).1).create_virtual_file "b.txt".toList 3 none).1

/-- One mutating index operation, for stating the capacity invariant over
operation sequences. -/
inductive FsOp where
  | mkFile (key : PStr) (size_bytes : Int) (content : Option PStr)
  | mkFolder (key : PStr)

/-- Apply one operation to a node, keeping the resulting state. -/
def applyOp (node : StorageVirtualNode) : FsOp → StorageVirtualNode
  | FsOp.mkFile k s c => (node.create_virtual_file k s c).1
  | FsOp.mkFolder k => (node.create_virtual_folder k).1

/-- Apply a sequence of operations from left to right. -/
def applyOps (node : StorageVirtualNode) (ops : List FsOp) : StorageVirtualNode :=
  ops.foldl applyOp node

/-- The state invariant of the storage node: `used_storage` matches the sum
of non-folder sizes, and every folder entry records size 0 (as the spec's
data model demands). -/
def goodState (node : StorageVirtualNode) : Prop :=
  node.used_storage = sumNonFolder node.files ∧
  ∀ kv ∈ node.files, kv.2.is_folder = true → kv.2.size_bytes = 0

/-- Looking up the key just inserted returns the inserted value. -/
theorem lookupKey_insertKey_self (l : List (PStr × VirtualFile)) (k : PStr)
    (v : VirtualFile) : lookupKey (insertKey l k v) k = some v := by
  induction l with
  | nil => simp [insertKey, lookupKey]
  | cons kv rest ih =>
    by_cases hk : kv.1 = k
    · simp [insertKey, hk, lookupKey]
    · simp [insertKey, hk, lookupKey, ih]

/-- C7: `start()` while running is a no-op failure; `stop()` while stopped is
a no-op failure; a successful `stop()` clears `is_running`, `used_storage`
and `files` while leaving `image_path` and `disk_path` untouched. -/
theorem lifecycle_guards (node : StorageVirtualNode) :
    (node.is_running = true →
      (∀ mount_ok disk_entries, node.start mount_ok disk_entries = (node, false))
      ∧ node.stop =
          ({ node with is_running := false, used_storage := 0, files := [] }, true)
      ∧ node.stop.1.image_path = node.image_path
      ∧ node.stop.1.disk_path = node.disk_path)
    ∧ (node.is_running = false → node.stop = (node, false)) := by
  constructor
  · intro h
    refine ⟨fun mo de => ?_, ?_, ?_, ?_⟩ <;>
      simp [StorageVirtualNode.start, StorageVirtualNode.stop, h]
  · intro h
    simp [StorageVirtualNode.stop, h]

/-- C7 witness: the guards and the stop postcondition at concrete nodes. -/
theorem lifecycle_guards_witness :
    runningNode.start true [] = (runningNode, false)
    ∧ runningNode.stop =
        ({ runningNode with is_running := false, used_storage := 0, files := [] }, true)
    ∧ (StorageVirtualNode.init 50 [] []).stop = (StorageVirtualNode.init 50 [] [], false) :=
  ⟨((lifecycle_guards runningNode).1 rfl).1 true [],
   ((lifecycle_guards runningNode).1 rfl).2.1,
   (lifecycle_guards (StorageVirtualNode.init 50 [] [])).2 rfl⟩

/-- C6: path resolution.  The empty input resolves to the current directory;
inputs starting with the root or home marker ignore the current directory
(and the home marker maps to the root); `/abs/path` resolves to itself from
any state; `..` from current directory `/x/y` resolves to `/x`. -/
theorem resolve_path_spec :
    (∀ node : StorageVirtualNode, node.resolve_path [] = node.cwd)
    ∧ (∀ (node : StorageVirtualNode) (cwd2 p : PStr),
        startsWithChar '/' p = true ∨ startsWithChar '~' p = true →
        ({ node with cwd := cwd2 }).resolve_path p = node.resolve_path p)
    ∧ (∀ node : StorageVirtualNode, node.resolve_path "~".toList = "/".toList)
    ∧ (∀ node : StorageVirtualNode,
        node.resolve_path "/abs/path".toList = "/abs/path".toList)
    ∧ (∀ node : StorageVirtualNode, node.cwd = "/x/y".toList →
        node.resolve_path "..".toList = "/x".toList) := by
  refine ⟨fun node => rfl, ?_, fun node => rfl, fun node => rfl, ?_⟩
  · intro node cwd2 p hp
    cases p with
    | nil => simp [startsWithChar] at hp
    | cons d t =>
      rcases hp with hp | hp <;>
        simp [StorageVirtualNode.resolve_path, hp]
  · intro node h
    unfold StorageVirtualNode.resolve_path
    rw [if_neg (by decide)]
    have hsw : (startsWithChar '/' "..".toList || startsWithChar '~' "..".toList) = false := by decide
    rw [hsw]
    simp only [Bool.false_eq_true, if_false, h]
    rfl

/-- C6 witness: resolving `..` from the concrete current directory `/x/y`
yields `/x`, and an absolute input ignores the current directory. -/
theorem resolve_path_spec_witness :
    ({ StorageVirtualNode.init 100 [] [] with
        cwd := "/x/y".toList }).resolve_path "..".toList = "/x".toList
    ∧ ({ navNode with cwd := "/x/y".toList }).resolve_path "/abs".toList =
        navNode.resolve_path "/abs".toList :=
  ⟨resolve_path_spec.2.2.2.2 _ rfl,
   resolve_path_spec.2.1 navNode "/x/y".toList "/abs".toList (Or.inl rfl)⟩

/-- C5: `change_directory` resolves its input; the virtual root always
succeeds; otherwise the call succeeds exactly when the resolved path,
stripped of its leading separators, is an `is_folder` key of the index, and
any failure leaves `cwd` unchanged. -/
theorem change_directory_spec (node : StorageVirtualNode) (path : PStr) :
    (node.resolve_path path = ['/'] →
      node.change_directory path = ({ node with cwd := ['/'] }, true, ['/']))
    ∧ (node.resolve_path path ≠ ['/'] →
      (∀ f, lookupKey node.files (lstripSlash (node.resolve_path path)) = some f →
          f.is_folder = true →
          node.change_directory path =
            ({ node with cwd := node.resolve_path path }, true,
              node.resolve_path path))
      ∧ ((∀ f, lookupKey node.files (lstripSlash (node.resolve_path path)) = some f →
          f.is_folder = false) →
          node.change_directory path = (node, false, node.cwd))) := by
  constructor
  · intro h
    simp [StorageVirtualNode.change_directory, h]
  · intro h
    constructor
    · intro f hf hfold
      simp [StorageVirtualNode.change_directory, h, hf, hfold]
    · intro hall
      cases hl : lookupKey node.files (lstripSlash (node.resolve_path path)) with
      | none => simp [StorageVirtualNode.change_directory, h, hl]
      | some f => simp [StorageVirtualNode.change_directory, h, hl, hall f hl]

/-- C5 witness: navigating into the indexed folder `d` succeeds and updates
`cwd` to the resolved path; navigating to a missing name fails and leaves
the state unchanged. -/
theorem change_directory_spec_witness :
    navNode.change_directory "d".toList =
      ({ navNode with cwd := navNode.resolve_path "d".toList }, true,
        navNode.resolve_path "d".toList)
    ∧ navNode.change_directory "missing".toList = (navNode, false, navNode.cwd) :=
  ⟨((change_directory_spec navNode "d".toList).2 (by decide)).1
      (VirtualFile.make "d".toList "/mnt/vm1_disk".toList 0 true none) rfl rfl,
   ((change_directory_spec navNode "missing".toList).2 (by decide)).2
      (fun f hf => by
        have hnone : lookupKey navNode.files
            (lstripSlash (navNode.resolve_path "missing".toList)) = none := by decide
        rw [hnone] at hf
        cases hf)⟩

/-- Success case of `create_virtual_file`: running node, quota satisfied,
parent check passed. -/
theorem create_file_success (node : StorageVirtualNode)
    (h : node.is_running = true) (key : PStr) (size : Int) (c : Option PStr)
    (hq : ¬ node.used_storage + size > node.total_storage)
    (hp : parentMissing node.files (osPathSplit key).1 = false) :
    node.create_virtual_file key size c =
      ({ node with
          used_storage := node.used_storage -
            (match lookupKey node.files key with
              | some f => f.size_bytes
              | none => 0) + size
          files := insertKey node.files key
            (VirtualFile.make key node.disk_path size false c) },
        FileResult.ok (VirtualFile.make key node.disk_path size false c)) := by
  unfold StorageVirtualNode.create_virtual_file
  simp [h, hq, hp]

/-- Parent-check failure case of `create_virtual_file`. -/
theorem create_file_noparent (node : StorageVirtualNode)
    (h : node.is_running = true) (key : PStr) (size : Int) (c : Option PStr)
    (hq : ¬ node.used_storage + size > node.total_storage)
    (hp : parentMissing node.files (osPathSplit key).1 = true) :
    node.create_virtual_file key size c = (node, FileResult.noSuchParent) := by
  unfold StorageVirtualNode.create_virtual_file
  simp [h, hq, hp]

/-- Quota failure case of `create_virtual_file`. -/
theorem create_file_full (node : StorageVirtualNode)
    (h : node.is_running = true) (key : PStr) (size : Int) (c : Option PStr)
    (hq : node.used_storage + size > node.total_storage) :
    node.create_virtual_file key size c = (node, FileResult.insufficientStorage) := by
  unfold StorageVirtualNode.create_virtual_file
  simp [h, hq]

/-- Success case of `create_virtual_folder`: running node, fresh key,
parent check passed. -/
theorem create_folder_success (node : StorageVirtualNode)
    (h : node.is_running = true) (key : PStr)
    (hnone : lookupKey node.files key = none)
    (hp : parentMissing node.files (osPathSplit key).1 = false) :
    node.create_virtual_folder key =
      ({ node with
          files := insertKey node.files key
            (VirtualFile.make key node.disk_path 0 true none) },
        FolderResult.ok (VirtualFile.make key node.disk_path 0 true none)) := by
  unfold StorageVirtualNode.create_virtual_folder
  simp [h, hnone, hp]

/-- Collision case of `create_virtual_folder`. -/
theorem create_folder_exists (node : StorageVirtualNode)
    (h : node.is_running = true) (key : PStr) (f0 : VirtualFile)
    (hk : lookupKey node.files key = some f0) :
    node.create_virtual_folder key = (node, FolderResult.alreadyExists) := by
  unfold StorageVirtualNode.create_virtual_folder
  simp [h, hk]

/-- Parent-check failure case of `create_virtual_folder`. -/
theorem create_folder_noparent (node : StorageVirtualNode)
    (h : node.is_running = true) (key : PStr)
    (hnone : lookupKey node.files key = none)
    (hp : parentMissing node.files (osPathSplit key).1 = true) :
    node.create_virtual_folder key = (node, FolderResult.noSuchParent) := by
  unfold StorageVirtualNode.create_virtual_folder
  simp [h, hnone, hp]

/-- The parent check fails exactly when the parent component is non-empty
and not an `is_folder` entry. -/
theorem parentMissing_true (files : List (PStr × VirtualFile)) (parent : PStr)
    (hne : parent ≠ [])
    (hnf : ∀ g, lookupKey files parent = some g → g.is_folder = false) :
    parentMissing files parent = true := by
  unfold parentMissing
  cases hl : lookupKey files parent with
  | none => simp [hne]
  | some g => simp [hne, hnf g hl]

/-- The parent check passes when the parent component is an `is_folder`
entry of the index. -/
theorem parentMissing_folder (files : List (PStr × VirtualFile)) (parent : PStr)
    (g : VirtualFile) (hg : lookupKey files parent = some g)
    (hgf : g.is_folder = true) : parentMissing files parent = false := by
  unfold parentMissing
  simp [hg, hgf]

/-- C1: on a running node `create_virtual_file` fails with
`InsufficientStorage` exactly when `used_storage + size_bytes` exceeds
`total_storage` — the raw requested size, with no credit for an existing
same-key entry — and that failure changes nothing; when the parent check
passes, size `total_storage - used_storage` succeeds while one byte more
fails. -/
theorem create_file_quota (node : StorageVirtualNode)
    (h : node.is_running = true) :
    (∀ key size c,
      ((node.create_virtual_file key size c).2 = FileResult.insufficientStorage ↔
        node.total_storage < node.used_storage + size)
      ∧ (node.total_storage < node.used_storage + size →
          node.create_virtual_file key size c = (node, FileResult.insufficientStorage)))
    ∧ (∀ key c,
      (osPathSplit key).1 = [] ∨
        (∃ g, lookupKey node.files (osPathSplit key).1 = some g ∧ g.is_folder = true) →
      FileResult.isOk
        (node.create_virtual_file key
          (node.total_storage - node.used_storage) c).2 = true
      ∧ node.create_virtual_file key
          (node.total_storage - node.used_storage + 1) c =
        (node, FileResult.insufficientStorage)) := by
  constructor
  · intro key size c
    constructor
    · constructor
      · intro habs
        by_cases hq : node.total_storage < node.used_storage + size
        · exact hq
        · exfalso
          by_cases hp : parentMissing node.files (osPathSplit key).1 = true
          · rw [create_file_noparent node h key size c hq hp] at habs
            cases habs
          · rw [create_file_success node h key size c hq
              (by revert hp; cases parentMissing node.files (osPathSplit key).1 <;>
                simp)] at habs
            cases habs
      · intro hq
        rw [create_file_full node h key size c hq]
    · intro hq
      exact create_file_full node h key size c hq
  · intro key c hp
    have hpm : parentMissing node.files (osPathSplit key).1 = false := by
      rcases hp with h0 | ⟨g, hg, hgf⟩
      · unfold parentMissing
        rw [h0]
        rfl
      · exact parentMissing_folder node.files _ g hg hgf
    have hq1 : ¬ node.used_storage + (node.total_storage - node.used_storage) >
        node.total_storage := by omega
    have hq2 : node.used_storage + (node.total_storage - node.used_storage + 1) >
        node.total_storage := by omega
    constructor
    · rw [create_file_success node h key _ c hq1 hpm]
      rfl
    · exact create_file_full node h key _ c hq2

/-- C1 witness: on a fresh running 100-byte device, a 100-byte file fits and
a 101-byte file is rejected with the state unchanged. -/
theorem create_file_quota_witness :
    FileResult.isOk
      (quotaNode.create_virtual_file "f".toList
        (quotaNode.total_storage - quotaNode.used_storage) none).2 = true
    ∧ quotaNode.create_virtual_file "f".toList
        (quotaNode.total_storage - quotaNode.used_storage + 1) none =
      (quotaNode, FileResult.insufficientStorage) :=
  (create_file_quota quotaNode rfl).2 "f".toList none (Or.inl rfl)

/-- C3: collision policy is asymmetric.  On a running node whose index
already holds `key`, `create_virtual_file` overwrites — subtracting the old
entry's size before adding the new one — provided quota and parent checks
pass, while `create_virtual_folder` fails with `AlreadyExists` and changes
nothing. -/
theorem collision_asymmetry (node : StorageVirtualNode)
    (h : node.is_running = true) (key : PStr) (f0 : VirtualFile)
    (hk : lookupKey node.files key = some f0) :
    (∀ size c, node.used_storage + size ≤ node.total_storage →
      parentMissing node.files (osPathSplit key).1 = false →
      node.create_virtual_file key size c =
        ({ node with
            used_storage := node.used_storage - f0.size_bytes + size
            files := insertKey node.files key
              (VirtualFile.make key node.disk_path size false c) },
          FileResult.ok (VirtualFile.make key node.disk_path size false c)))
    ∧ node.create_virtual_folder key = (node, FolderResult.alreadyExists) := by
  constructor
  · intro size c hq hp
    rw [create_file_success node h key size c (by omega) hp, hk]
  · exact create_folder_exists node h key f0 hk

/-- C3 witness: overwriting the existing 5-byte file `x` with a 7-byte file
succeeds and adjusts `used_storage` by the difference, while
`create_virtual_folder("x")` fails with `AlreadyExists`. -/
theorem collision_asymmetry_witness :
    overwriteNode.create_virtual_file "x".toList 7 none =
      ({ overwriteNode with
          used_storage := overwriteNode.used_storage -
            (VirtualFile.make "x".toList "/mnt/vm1_disk".toList 5 false none).size_bytes + 7
          files := insertKey overwriteNode.files "x".toList
            (VirtualFile.make "x".toList overwriteNode.disk_path 7 false none) },
        FileResult.ok
          (VirtualFile.make "x".toList overwriteNode.disk_path 7 false none))
    ∧ overwriteNode.create_virtual_folder "x".toList =
        (overwriteNode, FolderResult.alreadyExists) :=
  ⟨(collision_asymmetry overwriteNode rfl "x".toList
      (VirtualFile.make "x".toList "/mnt/vm1_disk".toList 5 false none) rfl).1
      7 none (by decide) rfl,
   (collision_asymmetry overwriteNode rfl "x".toList
      (VirtualFile.make "x".toList "/mnt/vm1_disk".toList 5 false none) rfl).2⟩

/-- C4: when a key's parent component is non-empty and not an `is_folder`
entry of the index, both creation operations fail with `NoSuchParent` and
change nothing (for files, provided the earlier quota check passes; for
folders, provided the key itself is absent).  Concretely,
`create_virtual_file("a/b.txt", 10)` fails while `a` is absent and succeeds
right after `create_virtual_folder("a")`. -/
theorem parent_must_exist (node : StorageVirtualNode)
    (h : node.is_running = true) :
    (∀ key size c, (osPathSplit key).1 ≠ [] →
      (∀ g, lookupKey node.files (osPathSplit key).1 = some g →
        g.is_folder = false) →
      node.used_storage + size ≤ node.total_storage →
      node.create_virtual_file key size c = (node, FileResult.noSuchParent))
    ∧ (∀ key, (osPathSplit key).1 ≠ [] →
      (∀ g, lookupKey node.files (osPathSplit key).1 = some g →
        g.is_folder = false) →
      lookupKey node.files key = none →
      node.create_virtual_folder key = (node, FolderResult.noSuchParent))
    ∧ (lookupKey node.files "a".toList = none →
      node.used_storage + 10 ≤ node.total_storage →
      node.create_virtual_file "a/b.txt".toList 10 none =
        (node, FileResult.noSuchParent)
      ∧ FileResult.isOk
          ((node.create_virtual_folder "a".toList).1.create_virtual_file
            "a/b.txt".toList 10 none).2 = true) := by
  have hpar : (osPathSplit "a/b.txt".toList).1 = "a".toList := rfl
  refine ⟨?_, ?_, ?_⟩
  · intro key size c hne hnf hq
    exact create_file_noparent node h key size c (by omega)
      (parentMissing_true node.files _ hne hnf)
  · intro key hne hnf hnone
    exact create_folder_noparent node h key hnone
      (parentMissing_true node.files _ hne hnf)
  · intro hnone hq
    constructor
    · refine create_file_noparent node h _ 10 none (by omega)
        (parentMissing_true node.files _ (by decide) ?_)
      intro g hg
      rw [hpar, hnone] at hg
      cases hg
    · have hp2 : parentMissing
          (insertKey node.files "a".toList
            (VirtualFile.make "a".toList node.disk_path 0 true none))
          (osPathSplit "a/b.txt".toList).1 = false := by
        unfold parentMissing
        rw [hpar, lookupKey_insertKey_self]
        rfl
      have hq6 : ¬ node.used_storage + 10 > node.total_storage := by omega
      rw [create_folder_success node h "a".toList hnone (by rfl)]
      show FileResult.isOk
        (({ node with
            files := insertKey node.files "a".toList
              (VirtualFile.make "a".toList node.disk_path 0 true none) }).create_virtual_file
          "a/b.txt".toList 10 none).2 = true
      rw [create_file_success
          { node with
            files := insertKey node.files "a".toList
              (VirtualFile.make "a".toList node.disk_path 0 true none) }
          h "a/b.txt".toList 10 none hq6 hp2]
      rfl

/-- C4 witness: on a fresh running device, `create_virtual_file("a/b.txt", 10)`
fails with `NoSuchParent`, and succeeds after `create_virtual_folder("a")`. -/
theorem parent_must_exist_witness :
    parentNode.create_virtual_file "a/b.txt".toList 10 none =
      (parentNode, FileResult.noSuchParent)
    ∧ FileResult.isOk
        ((parentNode.create_virtual_folder "a".toList).1.create_virtual_file
          "a/b.txt".toList 10 none).2 = true :=
  (parent_must_exist parentNode rfl).2.2 rfl (by decide)

/-- The accumulation loop of `list_contents` builds exactly the formatted
lines of the entries passing the parent filter, in traversal order. -/
theorem listing_loop (t : PStr) (l : List (PStr × VirtualFile))
    (acc : List PStr) :
    l.foldl (fun out kv =>
        if (osPathSplit kv.1).1 = t then out ++ [entryLine kv] else out) acc
      = acc ++ (l.filter (fun kv => (osPathSplit kv.1).1 = t)).map entryLine := by
  induction l generalizing acc with
  | nil => simp
  | cons x xs ih =>
    rw [List.foldl_cons]
    by_cases hx : (osPathSplit x.1).1 = t
    · rw [if_pos hx, ih]
      simp [List.filter_cons, hx]
    · rw [if_neg hx, ih]
      simp [List.filter_cons, hx]

/-- C8: `list_contents` returns the not-running message on a stopped node;
on a running node it returns one line per index entry whose key's parent
component equals the current directory's key (root mapping to the empty
parent), sorted by key, folders and files formatted distinctly (it reads the
state without modifying it). -/
theorem list_contents_spec (node : StorageVirtualNode) :
    (node.is_running = false →
      node.list_contents = "Virtual device is not running.".toList)
    ∧ (node.is_running = true →
      node.list_contents =
        List.intercalate "\n".toList
          (((sortByKey node.files).filter
              (fun kv => (osPathSplit kv.1).1 = currentKey node)).map entryLine)) := by
  constructor
  · intro h
    simp [StorageVirtualNode.list_contents, h]
  · intro h
    obtain ⟨t, u, f, d, i, r, c⟩ := node
    dsimp only at h
    subst h
    exact congrArg (List.intercalate "\n".toList)
      (listing_loop (currentKey ⟨t, u, f, d, i, true, c⟩) (sortByKey f) [])

/-- C8 witness: the spec's listing scenario.  After creating folder `docs`,
file `docs/a.txt` (5 bytes) and file `b.txt` (3 bytes), the root listing
shows exactly `b.txt` and `docs/` (sorted), and after `cd docs` the listing
shows only `a.txt`. -/
theorem list_contents_spec_witness :
    listingNode.list_contents =
      List.intercalate "\n".toList
        (((sortByKey listingNode.files).filter
            (fun kv => (osPathSplit kv.1).1 = currentKey listingNode)).map entryLine)
    ∧ listingNode.list_contents =
        "- 3B         b.txt\nd ---        docs/".toList
    ∧ ((listingNode.change_directory "docs".toList).1).list_contents =
        "- 5B         a.txt".toList :=
  ⟨(list_contents_spec listingNode).2 rfl, by decide, by decide⟩

/-- C9: `create_virtual_file` on a key currently indexed as a folder with
descendants succeeds, replacing the folder entry by a plain file entry while
the descendant entries stay behind in the index: from the reachable state
with folder `a` and file `a/b.txt`, overwriting key `a` with a 7-byte file
leaves `a/b.txt` indexed even though `a` is no longer a folder. -/
theorem folder_overwrite_orphans_children :
    FileResult.isOk (nestedNode.create_virtual_file "a".toList 7 none).2 = true
    ∧ (lookupKey (nestedNode.create_virtual_file "a".toList 7 none).1.files
        "a".toList).map (fun f => (f.is_folder, f.size_bytes)) =
      some (false, 7)
    ∧ (lookupKey (nestedNode.create_virtual_file "a".toList 7 none).1.files
        "a/b.txt".toList).map (fun f => (f.is_folder, f.size_bytes)) =
      some (false, 5)
    ∧ parentMissing (nestedNode.create_virtual_file "a".toList 7 none).1.files
        (osPathSplit "a/b.txt".toList).1 = true := by
  refine ⟨by decide, by decide, by decide, by decide⟩

/-- C2, failing input: after a rescan that found one on-disk directory `a`
(whose `stat` size is 4096, the usual ext4 directory size), the invariant
holds — `used_storage = 0` counts no folders — but overwriting key `a` with
a 10-byte file subtracts the folder's 4096 bytes that were never added,
driving `used_storage` to `-4086` while the non-folder sizes in the index
sum to `10`. -/
theorem capacity_invariant_rescan_failure :
    rescanNode.used_storage = sumNonFolder rescanNode.files
    ∧ FileResult.isOk (rescanNode.create_virtual_file "a".toList 10 none).2 = true
    ∧ rescanOverwritten.used_storage = -4086
    ∧ sumNonFolder rescanOverwritten.files = 10
    ∧ rescanOverwritten.used_storage ≠ sumNonFolder rescanOverwritten.files := by
  refine ⟨by decide, by decide, by decide, by decide, by decide⟩

/-- Splitting after a leading separator prepends one empty component. -/
theorem splitOnSlash_slash_cons (s : PStr) :
    splitOnSlash ('/' :: s) = [] :: splitOnSlash s := by
  simp [splitOnSlash]

/-- Splitting a string that starts with a non-separator prepends that
character to the first component. -/
theorem splitOnSlash_cons_ne (c : Char) (hc : ¬ c = '/') (s cur : PStr)
    (others : List PStr) (hs : splitOnSlash s = cur :: others) :
    splitOnSlash (c :: s) = (c :: cur) :: others := by
  show (if c = '/' then [] :: splitOnSlash s
    else match splitOnSlash s with
      | [] => [[c]]
      | cur2 :: others2 => (c :: cur2) :: others2) = (c :: cur) :: others
  rw [if_neg hc, hs]

/-- A chain of `k + 1` parent components splits into `k + 1` copies of
`..`. -/
theorem splitOnSlash_ddChain (k : Nat) :
    splitOnSlash (ddChain k) = List.replicate (k + 1) ['.', '.'] := by
  induction k with
  | zero => rfl
  | succ n ih =>
    show splitOnSlash ('.' :: '.' :: '/' :: ddChain n) = _
    have h1 := splitOnSlash_slash_cons (ddChain n)
    have h2 := splitOnSlash_cons_ne '.' (by decide) ('/' :: ddChain n) []
      (splitOnSlash (ddChain n)) h1
    have h3 := splitOnSlash_cons_ne '.' (by decide) ('.' :: '/' :: ddChain n) ['.']
      (splitOnSlash (ddChain n)) h2
    rw [h3, ih]
    simp [List.replicate_succ]

/-- Normalizing any number of `..` components of an absolute path from an
empty accumulator stays empty: `..` never survives at the root. -/
theorem normStep_replicate (n : Nat) :
    (List.replicate n ['.', '.']).foldl (normStep 1) [] = [] := by
  induction n with
  | zero => rfl
  | succ m ih =>
    rw [List.replicate_succ, List.foldl_cons]
    exact ih

/-- Normalizing a pure parent-component chain below the root yields the
root itself. -/
theorem normpath_root_ddChain (k : Nat) :
    normpath ('/' :: ddChain k) = ['/'] := by
  have h0 : ('/' :: ddChain k) ≠ [] := List.cons_ne_nil '/' (ddChain k)
  have h1 : initialSlashCount ('/' :: ddChain k) = 1 := by
    cases k <;> rfl
  have h2 : splitOnSlash ('/' :: ddChain k) = [] :: List.replicate (k + 1) ['.', '.'] := by
    rw [splitOnSlash_slash_cons, splitOnSlash_ddChain]
  unfold normpath
  rw [if_neg h0]
  simp only [h1, h2, List.foldl_cons,
    show normStep 1 [] [] = ([] : List PStr) from rfl, normStep_replicate]
  rfl

/-- C10: from the root, `change_directory` on `..` — and on any longer
chain of parent components, which lexical normalization can never take
above the virtual root — succeeds and leaves `cwd` at the root. -/
theorem cd_root_dotdot (node : StorageVirtualNode) (h : node.cwd = ['/'])
    (k : Nat) : node.change_directory (ddChain k) = (node, true, ['/']) := by
  have hne : ddChain k ≠ [] := by cases k <;> simp [ddChain]
  have hsw1 : startsWithChar '/' (ddChain k) = false := by cases k <;> rfl
  have hsw2 : startsWithChar '~' (ddChain k) = false := by cases k <;> rfl
  have hres : node.resolve_path (ddChain k) = ['/'] := by
    unfold StorageVirtualNode.resolve_path
    rw [if_neg hne]
    have hcond : (startsWithChar '/' (ddChain k) ||
        startsWithChar '~' (ddChain k)) = false := by
      simp [hsw1, hsw2]
    rw [hcond, if_neg (by simp)]
    show normpath (osPathJoin node.cwd (ddChain k)) = _
    rw [h]
    unfold osPathJoin
    rw [hsw1, if_neg (by simp)]
    rw [if_pos (Or.inr (show ['/'].getLast? = some '/' from rfl))]
    show normpath ('/' :: ddChain k) = _
    exact normpath_root_ddChain k
  unfold StorageVirtualNode.change_directory
  simp only [hres]
  rw [if_pos trivial]
  obtain ⟨t, u, f, d, i, r, c⟩ := node
  dsimp only at h
  subst h
  rfl

/-- C10 witness: `cd ..` from the root of a fresh node succeeds and stays
at the root. -/
theorem cd_root_dotdot_witness :
    (StorageVirtualNode.init 100 [] []).change_directory "..".toList =
      (StorageVirtualNode.init 100 [] [], true, "/".toList) :=
  cd_root_dotdot (StorageVirtualNode.init 100 [] []) rfl 0

/-- Contribution of one entry to `sumNonFolder`. -/
theorem sumNonFolder_cons (kv : PStr × VirtualFile)
    (rest : List (PStr × VirtualFile)) :
    sumNonFolder (kv :: rest) =
      (if kv.2.is_folder = false then kv.2.size_bytes else 0) + sumNonFolder rest := by
  by_cases hf : kv.2.is_folder = false <;>
    simp [sumNonFolder, List.filter_cons, hf]

/-- Effect of a dict assignment on the non-folder size sum: the first entry
at the key (if any) is replaced by the new value. -/
theorem sumNonFolder_insertKey (files : List (PStr × VirtualFile)) (k : PStr)
    (v : VirtualFile) :
    sumNonFolder (insertKey files k v) =
      sumNonFolder files -
        (match lookupKey files k with
          | some f => if f.is_folder = false then f.size_bytes else 0
          | none => 0) +
        (if v.is_folder = false then v.size_bytes else 0) := by
  induction files with
  | nil =>
    by_cases hv : v.is_folder = false <;>
      simp [insertKey, lookupKey, sumNonFolder, hv]
  | cons kv rest ih =>
    by_cases hk : kv.1 = k
    · simp only [insertKey, if_pos hk, lookupKey, sumNonFolder_cons]
      omega
    · simp only [insertKey, if_neg hk, lookupKey, sumNonFolder_cons, ih]
      cases lookupKey rest k <;> omega

/-- A successful lookup returns an entry of the list. -/
theorem lookupKey_mem (files : List (PStr × VirtualFile)) (k : PStr)
    (f : VirtualFile) (h : lookupKey files k = some f) : (k, f) ∈ files := by
  induction files with
  | nil => cases h
  | cons kv rest ih =>
    unfold lookupKey at h
    by_cases hk : kv.1 = k
    · rw [if_pos hk] at h
      cases h
      obtain ⟨k1, v1⟩ := kv
      cases hk
      exact List.mem_cons_self _ _
    · rw [if_neg hk] at h
      exact List.mem_cons_of_mem kv (ih h)

/-- Membership after a dict assignment comes from the old entries or is the
new pair. -/
theorem mem_insertKey (files : List (PStr × VirtualFile)) (k : PStr)
    (v : VirtualFile) (kv : PStr × VirtualFile)
    (h : kv ∈ insertKey files k v) : kv ∈ files ∨ kv = (k, v) := by
  induction files with
  | nil =>
    simp [insertKey] at h
    exact Or.inr h
  | cons kv0 rest ih =>
    unfold insertKey at h
    by_cases hk : kv0.1 = k
    · rw [if_pos hk] at h
      rcases List.mem_cons.1 h with h1 | h1
      · exact Or.inr h1
      · exact Or.inl (List.mem_cons_of_mem kv0 h1)
    · rw [if_neg hk] at h
      rcases List.mem_cons.1 h with h1 | h1
      · exact Or.inl (h1 ▸ List.mem_cons_self kv0 rest)
      · rcases ih h1 with h2 | h2
        · exact Or.inl (List.mem_cons_of_mem kv0 h2)
        · exact Or.inr h2

/-- `create_virtual_file` preserves the capacity invariant. -/
theorem goodState_create_file (node : StorageVirtualNode) (key : PStr)
    (size : Int) (c : Option PStr) (h : goodState node) :
    goodState (node.create_virtual_file key size c).1 := by
  obtain ⟨h1, h2⟩ := h
  unfold StorageVirtualNode.create_virtual_file
  by_cases hr : node.is_running = false
  · simp only [if_pos hr]
    exact ⟨h1, h2⟩
  · simp only [if_neg hr]
    by_cases hq : node.used_storage + size > node.total_storage
    · simp only [if_pos hq]
      exact ⟨h1, h2⟩
    · simp only [if_neg hq]
      by_cases hp : parentMissing node.files (osPathSplit key).1 = true
      · simp only [hp, if_true]
        exact ⟨h1, h2⟩
      · simp only [hp, if_false]
        constructor
        · show node.used_storage -
              (match lookupKey node.files key with
                | some f => f.size_bytes
                | none => 0) + size =
            sumNonFolder (insertKey node.files key
              (VirtualFile.make key node.disk_path size false c))
          rw [sumNonFolder_insertKey, ← h1]
          cases hl : lookupKey node.files key with
          | none => simp [VirtualFile.make]
          | some f =>
            by_cases hf : f.is_folder = false
            · simp [VirtualFile.make, hf]
            · have hzero : f.size_bytes = 0 :=
                h2 (key, f) (lookupKey_mem node.files key f hl)
                  (by revert hf; cases f.is_folder <;> simp)
              simp [VirtualFile.make, hf, hzero]
        · intro kv hkv hfold
          rcases mem_insertKey node.files key _ kv hkv with hm | hm
          · exact h2 kv hm hfold
          · rw [hm] at hfold
            simp [VirtualFile.make] at hfold

/-- `create_virtual_folder` preserves the capacity invariant and never
changes `used_storage`. -/
theorem goodState_create_folder (node : StorageVirtualNode) (key : PStr)
    (h : goodState node) :
    goodState (node.create_virtual_folder key).1 := by
  obtain ⟨h1, h2⟩ := h
  unfold StorageVirtualNode.create_virtual_folder
  by_cases hr : node.is_running = false
  · simp only [if_pos hr]
    exact ⟨h1, h2⟩
  · simp only [if_neg hr]
    by_cases he : (lookupKey node.files key).isSome = true
    · simp only [if_pos he]
      exact ⟨h1, h2⟩
    · simp only [if_neg he]
      by_cases hp : parentMissing node.files (osPathSplit key).1 = true
      · simp only [hp, if_true]
        exact ⟨h1, h2⟩
      · simp only [hp, if_false]
        have hnone : lookupKey node.files key = none := by
          revert he
          cases lookupKey node.files key <;> simp
        constructor
        · show node.used_storage =
            sumNonFolder (insertKey node.files key
              (VirtualFile.make key node.disk_path 0 true none))
          rw [sumNonFolder_insertKey, hnone, ← h1]
          simp [VirtualFile.make]
        · intro kv hkv hfold
          rcases mem_insertKey node.files key _ kv hkv with hm | hm
          · exact h2 kv hm hfold
          · rw [hm]
            rfl

/-- Folder creation never changes `used_storage`, on any node. -/
theorem create_folder_used_unchanged (node : StorageVirtualNode) (key : PStr) :
    (node.create_virtual_folder key).1.used_storage = node.used_storage := by
  unfold StorageVirtualNode.create_virtual_folder
  by_cases hr : node.is_running = false
  · simp [hr]
  · by_cases he : (lookupKey node.files key).isSome = true
    · simp [hr, he]
    · by_cases hp : parentMissing node.files (osPathSplit key).1 = true
      · simp [hr, he, hp]
      · simp [hr, he, hp]

/-- From any state satisfying the invariant — in particular a freshly
constructed node — every sequence of file/folder creations keeps
`used_storage` equal to the sum of non-folder sizes in the index.  Together
with the rescan counterexample above, this pins the invariant violation to
rescans that record non-zero sizes on folder entries. -/
theorem used_storage_matches_sum (node : StorageVirtualNode)
    (h : goodState node) (ops : List FsOp) :
    (applyOps node ops).used_storage = sumNonFolder (applyOps node ops).files := by
  suffices hgood : goodState (applyOps node ops) from hgood.1
  induction ops generalizing node with
  | nil => exact h
  | cons op rest ih =>
    show goodState (applyOps (applyOp node op) rest)
    refine ih (applyOp node op) ?_
    cases op with
    | mkFile k s c => exact goodState_create_file node k s c h
    | mkFolder k => exact goodState_create_folder node k h
